import Mathlib

/-!
Shallow embedding of the heb1025bot family of Telegram bots
(repository IlyaSkriblovsky/heb1025bot).

Tables of the sqlite database are modelled as Lean lists of row
structures; each storage method of the Python source becomes a pure
function from table state to table state (fallible methods return
`Except`).  Timestamps (`datetime("now")` values) are threaded in as
explicit parameters.  sqlite `NULL` in boolean columns is modelled as
`false`, which is observationally equivalent for every read path in
the source (`bool(None) = False` in Python, `WHERE is_admin` treats
NULL as false in SQL).
-/

namespace Heb1025

/-! ### Users table (bots/aspects/users.py, class UsersStorage)

Schema: chat_id INTEGER PRIMARY KEY, first_name, last_name, username,
start_time TEXT, is_admin INTEGER DEFAULT 0, banned INTEGER DEFAULT 0. -/

structure URow where
  chat_id : Int
  first_name : String
  last_name : String
  username : String
  start_time : String
  is_admin : Bool
  banned : Bool
deriving Repr, DecidableEq

abbrev UsersTable := List URow

/-- `UsersStorage.add_user`: SELECT the chat_id; if a row exists, UPDATE
only first_name, last_name, username WHERE chat_id=?; otherwise INSERT a
new row whose is_admin and banned take their column defaults (0). -/
def add_user (s : UsersTable) (cid : Int) (fn ln un : String) (now : String) : UsersTable :=
  if s.any (fun r => r.chat_id == cid) then
    s.map (fun r =>
      if r.chat_id == cid then
        { r with first_name := fn, last_name := ln, username := un }
      else r)
  else
    s ++ [{ chat_id := cid, first_name := fn, last_name := ln, username := un,
            start_time := now, is_admin := false, banned := false }]

/-- `UsersStorage.get_all_chat_ids`: SELECT chat_id FROM users WHERE NOT banned. -/
def get_all_chat_ids (s : UsersTable) : List Int :=
  (s.filter (fun r => !r.banned)).map (fun r => r.chat_id)

/-- `UsersStorage.get_admin_chat_ids`: SELECT chat_id FROM users WHERE NOT banned AND is_admin. -/
def get_admin_chat_ids (s : UsersTable) : List Int :=
  (s.filter (fun r => !r.banned && r.is_admin)).map (fun r => r.chat_id)

/-- `UsersStorage.is_admin`: SELECT is_admin FROM users WHERE chat_id=? AND NOT banned,
fetchone; a missing row yields False. -/
def is_admin (s : UsersTable) (cid : Int) : Bool :=
  match s.find? (fun r => r.chat_id == cid && !r.banned) with
  | some r => r.is_admin
  | none => false

/-- `UsersStorage._set_is_admin_with_cursor`: UPDATE users SET is_admin=?
WHERE chat_id=? AND NOT banned. -/
def set_is_admin (s : UsersTable) (cid : Int) (b : Bool) : UsersTable :=
  s.map (fun r => if r.chat_id == cid && !r.banned then { r with is_admin := b } else r)

/-- `UsersStorage.is_banned`: SELECT banned FROM users WHERE chat_id=?;
a missing row yields True (fail closed). -/
def is_banned (s : UsersTable) (cid : Int) : Bool :=
  match s.find? (fun r => r.chat_id == cid) with
  | some r => r.banned
  | none => true

/-- `UsersStorage.set_banned`: UPDATE users SET banned=? WHERE chat_id=?. -/
def set_banned (s : UsersTable) (cid : Int) (b : Bool) : UsersTable :=
  s.map (fun r => if r.chat_id == cid then { r with banned := b } else r)

/-! ### Admin requests (bots/aspects/users.py)

Tables admin_requests (id, candidate_chat_id, request_text) and
admin_request_confirmations (request_id, existing_admin_chat_id,
message_id; the autoincrement id column is never read back and is
omitted). -/

structure ARow where
  id : Int
  candidate_chat_id : Int
  request_text : String
deriving Repr, DecidableEq

structure CRow where
  request_id : Int
  existing_admin_chat_id : Int
  message_id : Int
deriving Repr, DecidableEq

structure ChatAndMessageId where
  chat_id : Int
  message_id : Int
deriving Repr, DecidableEq

/-- The three tables owned by `UsersStorage`. -/
structure UsersState where
  users : UsersTable
  admin_requests : List ARow
  confirmations : List CRow
deriving Repr, DecidableEq

/-- A Python exception escaping a storage method.  `typeError` stands for
the `TypeError` raised by `candidate_chat_id, request_text = cursor.fetchone()`
when the SELECT matched no row (fetchone returned `None`, which cannot be
unpacked). -/
inductive ResolveErr
  | typeError
deriving Repr, DecidableEq

/-- `UsersStorage.create_admin_request`: INSERT a request row (the fresh
id is supplied by the caller here, standing for sqlite's rowid). -/
def create_admin_request (s : UsersState) (rid : Int) (candidate : Int) (text : String) :
    UsersState × ARow :=
  ({ s with admin_requests := s.admin_requests ++ [⟨rid, candidate, text⟩] },
   ⟨rid, candidate, text⟩)

/-- `UsersStorage.save_admin_request_confirmations`: executemany INSERT. -/
def save_admin_request_confirmations (s : UsersState) (rid : Int)
    (confs : List ChatAndMessageId) : UsersState :=
  { s with confirmations :=
      s.confirmations ++ confs.map (fun m => ⟨rid, m.chat_id, m.message_id⟩) }

/-- `UsersStorage._clear_admin_request`: under one cursor, SELECT the
request row (unpacking `fetchone()` — raises TypeError when missing),
SELECT its confirmations, then DELETE the confirmations and the request. -/
def clear_admin_request (s : UsersState) (rid : Int) :
    Except ResolveErr (ARow × List ChatAndMessageId × UsersState) :=
  match s.admin_requests.find? (fun r => r.id == rid) with
  | none => .error .typeError
  | some req =>
      let confs := (s.confirmations.filter (fun c => c.request_id == rid)).map
        (fun c => ChatAndMessageId.mk c.existing_admin_chat_id c.message_id)
      .ok (⟨rid, req.candidate_chat_id, req.request_text⟩, confs,
        { s with
            confirmations := s.confirmations.filter (fun c => !(c.request_id == rid)),
            admin_requests := s.admin_requests.filter (fun r => !(r.id == rid)) })

/-- `UsersStorage.reject_admin_request`: `_clear_admin_request` under one
`with_cursor(commit=True)` scope. -/
def reject_admin_request (s : UsersState) (rid : Int) :
    Except ResolveErr (ARow × List ChatAndMessageId × UsersState) :=
  clear_admin_request s rid

/-- `UsersStorage.accept_admin_request`: `_clear_admin_request` then
`_set_is_admin_with_cursor(c, candidate, True)`, both under the same
`with_cursor(commit=True)` scope. -/
def accept_admin_request (s : UsersState) (rid : Int) :
    Except ResolveErr (ARow × List ChatAndMessageId × UsersState) :=
  match clear_admin_request s rid with
  | .error e => .error e
  | .ok (req, confs, s1) =>
      .ok (req, confs, { s1 with users := set_is_admin s1.users req.candidate_chat_id true })

/-! ### Autodelete scheduler (bots/aspects/autodelete.py; the same SQL
appears in heb1025bot/storage.py as schedule_message_to_delete /
get_scheduled_for_deleting / forget_msgs_to_delete)

Table msgs_to_delete: chat_id, message_id, delete_at,
PRIMARY KEY (chat_id, message_id).  Timestamps are modelled as `Int`. -/

structure DRow where
  chat_id : Int
  message_id : Int
  delete_at : Int
deriving Repr, DecidableEq

structure MessageToDelete where
  chat_id : Int
  message_id : Int
deriving Repr, DecidableEq

/-- A sqlite exception: `integrityError` is the UNIQUE-constraint
(duplicate primary key) violation raised by a plain INSERT whose key
already exists. -/
inductive SqlErr
  | integrityError
deriving Repr, DecidableEq

/-- `AutoDeleteStorage.schedule` (also `Storage.schedule_message_to_delete`):
a plain `INSERT INTO msgs_to_delete (chat_id, message_id, delete_at) VALUES
(?, ?, datetime("now", ttl))`.  The table's composite primary key makes the
INSERT fail with an IntegrityError when the pair is already present. -/
def schedule (s : List DRow) (cid mid : Int) (now ttl : Int) :
    Except SqlErr (List DRow) :=
  if s.any (fun r => r.chat_id == cid && r.message_id == mid) then
    .error .integrityError
  else
    .ok (s ++ [⟨cid, mid, now + ttl⟩])

/-- `AutoDeleteStorage.get_scheduled`: SELECT chat_id, message_id FROM
msgs_to_delete WHERE delete_at <= datetime("now") LIMIT ?. -/
def get_scheduled (s : List DRow) (limit : Nat) (now : Int) : List MessageToDelete :=
  ((s.filter (fun r => decide (r.delete_at ≤ now))).take limit).map
    (fun r => MessageToDelete.mk r.chat_id r.message_id)

/-- `AutoDeleteStorage.forget`: executemany DELETE FROM msgs_to_delete
WHERE chat_id=? AND message_id=?. -/
def forget (s : List DRow) (msgs : List MessageToDelete) : List DRow :=
  s.filter (fun r =>
    !(msgs.any (fun m => m.chat_id == r.chat_id && m.message_id == r.message_id)))

/-! ### Purge job (remove_scheduled)

`bot.delete_message` outcomes are supplied by an oracle
`del_ : MessageToDelete → Option TgError` (`none` = success). -/

/-- An exception from the messaging collaborator: `badRequest m` is a
`telegram.error.BadRequest` carrying message text `m`; `otherError` is
any other exception type. -/
inductive TgError
  | badRequest (message : String)
  | otherError
deriving Repr, DecidableEq

/-- The `except BadRequest` filter of `remove_scheduled` in
bots/aspects/autodelete.py: swallow iff the message text is one of
`Message to delete not found` / `Message can't be deleted`. -/
def aspectsSwallows : TgError → Bool
  | .badRequest m => m == "Message to delete not found" || m == "Message can't be deleted"
  | .otherError => false

/-- The `except BadRequest` filter of `remove_scheduled` in
heb1025bot/main.py: swallow iff the message text is exactly
`Message to delete not found`. -/
def legacySwallows : TgError → Bool
  | .badRequest m => m == "Message to delete not found"
  | .otherError => false

/-- The `for msg in msgs: try: bot.delete_message ... except` loop: stops
with the first failure the filter does not swallow. -/
def purgeLoop (swallows : TgError → Bool) (del_ : MessageToDelete → Option TgError) :
    List MessageToDelete → Except TgError Unit
  | [] => .ok ()
  | m :: rest =>
      match del_ m with
      | none => purgeLoop swallows del_ rest
      | some e => if swallows e then purgeLoop swallows del_ rest else .error e

/-- `remove_scheduled` in bots/aspects/autodelete.py: drain up to 25 due
entries, attempt each delete (swallowing the two expected BadRequest
kinds), then forget the whole batch; a propagating failure skips the
forget step. -/
def remove_scheduled (del_ : MessageToDelete → Option TgError)
    (s : List DRow) (now : Int) : Except TgError (List DRow) :=
  let msgs := get_scheduled s 25 now
  match purgeLoop aspectsSwallows del_ msgs with
  | .ok _ => .ok (forget s msgs)
  | .error e => .error e

/-- `remove_scheduled` in heb1025bot/main.py: identical except that only
`Message to delete not found` is swallowed. -/
def remove_scheduled_legacy (del_ : MessageToDelete → Option TgError)
    (s : List DRow) (now : Int) : Except TgError (List DRow) :=
  let msgs := get_scheduled s 25 now
  match purgeLoop legacySwallows del_ msgs with
  | .ok _ => .ok (forget s msgs)
  | .error e => .error e

/-! ### Send-task queue (bots/aspects/send_tasks.py; the same SQL appears
in heb1025bot/storage.py)

Table send_tasks: id INTEGER PRIMARY KEY, chat_id, text. -/

structure SendTask where
  task_id : Int
  chat_id : Int
  text : String
deriving Repr, DecidableEq

/-- Insert one task, keeping the list sorted by id (mirrors `ORDER BY id`). -/
def insertById (t : SendTask) : List SendTask → List SendTask
  | [] => [t]
  | u :: us => if t.task_id ≤ u.task_id then t :: u :: us else u :: insertById t us

/-- Sort by id, mirroring `ORDER BY id`. -/
def orderById (s : List SendTask) : List SendTask :=
  s.foldr insertById []

/-- `SendTasksStorage.load` (also `Storage.load_send_tasks`):
SELECT id, chat_id, text FROM send_tasks ORDER BY id LIMIT ?. -/
def load (s : List SendTask) (limit : Nat) : List SendTask :=
  (orderById s).take limit

/-- `SendTasksStorage.dismiss` (also `Storage.dismiss_send_tasks`):
executemany DELETE FROM send_tasks WHERE id = ?. -/
def dismiss (s : List SendTask) (ids : List Int) : List SendTask :=
  s.filter (fun t => !(ids.any (fun i => i == t.task_id)))

/-- `Storage.save_send_tasks` / `SendTasksStorage.save`: one INSERT per
chat id; sqlite assigns each new row max(id)+1. -/
def next_task_id (s : List SendTask) : Int :=
  (s.foldl (fun a t => max a t.task_id) 0) + 1

def save_send_tasks (s : List SendTask) (chat_ids : List Int) (text : String) :
    List SendTask :=
  chat_ids.foldl (fun acc cid => acc ++ [⟨next_task_id acc, cid, text⟩]) s

/-- Outcome of one `bot.send_message` call in the dispatch loop. -/
inductive SendOutcome
  | ok
  | badRequest
  | otherError
deriving Repr, DecidableEq

/-- The dispatch loop of `send_tasks` in bots/heb1025/__main__.py:
`except BadRequest: logger.exception(...)` — a BadRequest is logged and
skipped, any other exception propagates. -/
def sendLoop (send : SendTask → SendOutcome) : List SendTask → Except Unit Unit
  | [] => .ok ()
  | t :: rest =>
      match send t with
      | .ok => sendLoop send rest
      | .badRequest => sendLoop send rest
      | .otherError => .error ()

/-- The dispatch loop of `send_tasks` in heb1025bot/main.py: no
try/except at all — any exception propagates. -/
def sendLoop_legacy (send : SendTask → SendOutcome) : List SendTask → Except Unit Unit
  | [] => .ok ()
  | t :: rest =>
      match send t with
      | .ok => sendLoop_legacy send rest
      | .badRequest => .error ()
      | .otherError => .error ()

/-- `send_tasks` in bots/heb1025/__main__.py: load a batch of 20,
attempt each send (BadRequest logged and skipped), then dismiss every
loaded task id; a propagating failure skips the dismiss step. -/
def send_tasks (send : SendTask → SendOutcome) (s : List SendTask) :
    Except Unit (List SendTask) :=
  let tasks := load s 20
  match sendLoop send tasks with
  | .ok _ => .ok (dismiss s (tasks.map (fun t => t.task_id)))
  | .error _ => .error ()

/-- `send_tasks` in heb1025bot/main.py: same shape but with no
try/except around the sends. -/
def send_tasks_legacy (send : SendTask → SendOutcome) (s : List SendTask) :
    Except Unit (List SendTask) :=
  let tasks := load s 20
  match sendLoop_legacy send tasks with
  | .ok _ => .ok (dismiss s (tasks.map (fun t => t.task_id)))
  | .error _ => .error ()

/-! ### Unconfirmed broadcast texts and the confirmation callback
(bots/storage/unconfirmed_texts.py and heb1025bot/storage.py; handler
`on_callback` in bots/heb1025/__main__.py and heb1025bot/main.py)

Table unconfirmed_texts: id INTEGER PRIMARY KEY, text,
confirmation_message_id (NULL until the prompt is sent). -/

structure TRow where
  id : Int
  text : String
  confirmation_message_id : Option Int
deriving Repr, DecidableEq

/-- `Storage.load_unconfirmed_text` / `UnconfirmedTextsStorage.load`:
SELECT ... WHERE id=?; returns `None` on a miss. -/
def load_unconfirmed_text (s : List TRow) (tid : Int) : Option TRow :=
  (s.find? (fun r => r.id == tid)).map (fun r => ⟨tid, r.text, r.confirmation_message_id⟩)

/-- `Storage.delete_unconfirmed_text` / `UnconfirmedTextsStorage.delete`. -/
def delete_unconfirmed_text (s : List TRow) (tid : Int) : List TRow :=
  s.filter (fun r => !(r.id == tid))

/-! Legacy users table (heb1025bot/storage.py and
bots/storage/heb1025_users.py): same schema as the aspects variant but
with no banned column and no default on is_admin. -/

structure LURow where
  chat_id : Int
  first_name : String
  last_name : String
  username : String
  start_time : String
  is_admin : Bool
deriving Repr, DecidableEq

/-- `Storage.add_user` in heb1025bot/storage.py (identical SQL in
bots/storage/heb1025_users.py): `INSERT OR REPLACE INTO users (...)
VALUES (?, ?, ?, ?, datetime("now"), (SELECT is_admin FROM users WHERE
chat_id=?))` — the whole row is replaced, start_time is reset to now,
and is_admin is carried over through the scalar subselect (NULL, read as
false, when the chat_id is new). -/
def add_user_legacy (s : List LURow) (cid : Int) (fn ln un : String) (now : String) :
    List LURow :=
  let old_admin :=
    match s.find? (fun r => r.chat_id == cid) with
    | some r => r.is_admin
    | none => false
  (s.filter (fun r => !(r.chat_id == cid))) ++ [⟨cid, fn, ln, un, now, old_admin⟩]

/-- `Storage.get_all_chat_ids` in heb1025bot/storage.py: SELECT chat_id
FROM users (no ban filter — the legacy schema has no banned column). -/
def get_all_chat_ids_legacy (s : List LURow) : List Int :=
  s.map (fun r => r.chat_id)

/-- The two broadcast-confirmation callback types of `on_callback`. -/
inductive CallbackType
  | cancel
  | send
deriving Repr, DecidableEq

/-- A Python exception escaping `on_callback`: `attributeError` stands
for the `AttributeError` raised by `text_info.id` when
`load_unconfirmed_text` returned `None`. -/
inductive HandlerError
  | attributeError
deriving Repr, DecidableEq

/-- The user-visible reply produced by `on_callback`. -/
inductive Reply
  | cancelled
  | alreadySent
  | sending (n_users : Nat)
deriving Repr, DecidableEq

/-- The storage tables touched by the broadcast-confirmation callback. -/
structure BroadcastState where
  users : List LURow
  texts : List TRow
  tasks : List SendTask
deriving Repr, DecidableEq

/-- The `cancel` and `send` branches of `on_callback`
(bots/heb1025/__main__.py lines 63-89; heb1025bot/main.py lines 59-86
is the same code modulo reading the recipient list before instead of
after the lookup, which does not change any outcome).

cancel: `text_info = load(...)` and then `delete(text_info.id)` with no
None check — a lookup miss raises AttributeError before any mutation.
send: a lookup miss is checked and answered with the
`Сообщение уже разослано` notice; otherwise one send task per
registered chat id plus one self-notification task are saved and the
draft row is deleted. -/
def on_callback (s : BroadcastState) (sender_chat_id : Int)
    (ct : CallbackType) (tid : Int) : Except HandlerError (BroadcastState × Reply) :=
  match ct with
  | .cancel =>
      match load_unconfirmed_text s.texts tid with
      | none => .error .attributeError
      | some ti =>
          .ok ({ s with texts := delete_unconfirmed_text s.texts ti.id }, .cancelled)
  | .send =>
      match load_unconfirmed_text s.texts tid with
      | none => .ok (s, .alreadySent)
      | some ti =>
          let chat_ids := get_all_chat_ids_legacy s.users
          let tasks1 := save_send_tasks s.tasks chat_ids ti.text
          let tasks2 := save_send_tasks tasks1 [sender_chat_id] "sent-confirmation"
          .ok ({ s with tasks := tasks2, texts := delete_unconfirmed_text s.texts ti.id },
               .sending chat_ids.length)

/-! ### Scoped cursor contexts (bots/db.py CursorContext and
heb1025bot/storage.py Serializer)

`__exit__` is modelled step by step as straight-line code: close the
cursor, optionally commit, release the lock — with no try/finally, so a
step that raises skips everything after it.  `bodyRaised` records
whether the `with` body exited with an exception; `__exit__` ignores
its exc arguments and runs the same steps either way, and returns None
so a body exception keeps propagating. -/

structure ExitOutcome where
  lockReleased : Bool
  raised : Bool
deriving Repr, DecidableEq

/-- `CursorContext.__exit__` (bots/db.py): `self.cursor.close(); if
self.commit: self.committer(); self.lock.release()`. -/
def cursorContextExit (commitFlag : Bool) (closeRaises commitRaises bodyRaised : Bool) :
    ExitOutcome :=
  if closeRaises then ⟨false, true⟩
  else if commitFlag && commitRaises then ⟨false, true⟩
  else ⟨true, bodyRaised⟩

/-- `Serializer.__exit__` (heb1025bot/storage.py): `self.cursor.close();
self.lock.release()` — no commit step. -/
def serializerExit (closeRaises bodyRaised : Bool) : ExitOutcome :=
  if closeRaises then ⟨false, true⟩
  else ⟨true, bodyRaised⟩

end Heb1025

namespace Heb1025

/-! ### Helper lemmas -/

theorem find?_filter_not {α : Type} (l : List α) (p : α → Bool) :
    (l.filter (fun a => !(p a))).find? p = none := by
  rw [List.find?_eq_none]
  intro a ha
  rw [List.mem_filter] at ha
  rcases ha with ⟨-, hp⟩
  rw [Bool.not_eq_true'] at hp
  simp [hp]

theorem filter_filter_not {α : Type} (l : List α) (p : α → Bool) :
    (l.filter (fun a => !(p a))).filter p = [] := by
  rw [List.filter_eq_nil_iff]
  intro a ha
  rw [List.mem_filter] at ha
  rcases ha with ⟨-, hp⟩
  rw [Bool.not_eq_true'] at hp
  simp [hp]

/-! ### Claim theorems -/

/-- C6: Ban gating invariant: for every user whose banned flag is set
(every users-table row carrying that chat id is banned), and for as long
as that holds, `get_all_chat_ids` and `get_admin_chat_ids` never include
that chat id, and `is_admin` returns false for it, even when the row's
is_admin flag is true. -/
theorem ban_gating (s : UsersTable) (cid : Int)
    (h : ∀ r ∈ s, r.chat_id = cid → r.banned = true) :
    cid ∉ get_all_chat_ids s ∧ cid ∉ get_admin_chat_ids s ∧ is_admin s cid = false := by
  refine ⟨fun hmem => ?_, fun hmem => ?_, ?_⟩
  · rw [get_all_chat_ids, List.mem_map] at hmem
    obtain ⟨r, hr, hcid⟩ := hmem
    rw [List.mem_filter] at hr
    have hb := h r hr.1 hcid
    rw [hb] at hr
    simp at hr
  · rw [get_admin_chat_ids, List.mem_map] at hmem
    obtain ⟨r, hr, hcid⟩ := hmem
    rw [List.mem_filter] at hr
    have hb := h r hr.1 hcid
    rw [hb] at hr
    simp at hr
  · rw [is_admin]
    have hnone : s.find? (fun r => r.chat_id == cid && !r.banned) = none := by
      rw [List.find?_eq_none]
      intro r hr
      by_cases hc : r.chat_id = cid
      · have hb := h r hr hc
        simp [hb]
      · simp [hc]
    rw [hnone]

/-- Witness for `ban_gating` at a concrete banned admin row. -/
theorem ban_gating_witness :
    (1 : Int) ∉ get_all_chat_ids [⟨1, "a", "b", "c", "t", true, true⟩]
  ∧ (1 : Int) ∉ get_admin_chat_ids [⟨1, "a", "b", "c", "t", true, true⟩]
  ∧ is_admin [⟨1, "a", "b", "c", "t", true, true⟩] 1 = false :=
  ban_gating [⟨1, "a", "b", "c", "t", true, true⟩] 1 (by decide)

/-- C10: `set_banned` writes only the banned column of the rows with the
given chat id: list length is preserved, every other field of every row
is preserved, rows with a different chat id are untouched; and when no
row with that chat id is banned initially, `set_banned true` followed by
`set_banned false` restores the table exactly, so in particular an
admin banned and later unbanned reads as admin again. -/
theorem set_banned_frame_roundtrip (s : UsersTable) (cid : Int) (b : Bool)
    (h : ∀ r ∈ s, r.chat_id = cid → r.banned = false) :
    (set_banned s cid b).length = s.length
  ∧ (∀ (i : Nat) (hi : i < s.length) (hi2 : i < (set_banned s cid b).length),
        ((set_banned s cid b).get ⟨i, hi2⟩).chat_id = (s.get ⟨i, hi⟩).chat_id
      ∧ ((set_banned s cid b).get ⟨i, hi2⟩).first_name = (s.get ⟨i, hi⟩).first_name
      ∧ ((set_banned s cid b).get ⟨i, hi2⟩).last_name = (s.get ⟨i, hi⟩).last_name
      ∧ ((set_banned s cid b).get ⟨i, hi2⟩).username = (s.get ⟨i, hi⟩).username
      ∧ ((set_banned s cid b).get ⟨i, hi2⟩).start_time = (s.get ⟨i, hi⟩).start_time
      ∧ ((set_banned s cid b).get ⟨i, hi2⟩).is_admin = (s.get ⟨i, hi⟩).is_admin
      ∧ ((s.get ⟨i, hi⟩).chat_id ≠ cid →
            (set_banned s cid b).get ⟨i, hi2⟩ = s.get ⟨i, hi⟩))
  ∧ set_banned (set_banned s cid true) cid false = s
  ∧ is_admin (set_banned (set_banned s cid true) cid false) cid = is_admin s cid := by
  have hrt : set_banned (set_banned s cid true) cid false = s := by
    rw [set_banned, set_banned, List.map_map]
    have : s.map ((fun r => if r.chat_id == cid then { r with banned := false } else r) ∘
        (fun r => if r.chat_id == cid then { r with banned := true } else r)) = s.map id := by
      apply List.map_congr_left
      intro r hr
      by_cases hc : r.chat_id = cid
      · have hb := h r hr hc
        cases r
        simp_all
      · simp [hc]
    rw [this, List.map_id]
  refine ⟨?_, ?_, hrt, by rw [hrt]⟩
  · rw [set_banned, List.length_map]
  · intro i hi hi2
    rw [List.get_eq_getElem, List.get_eq_getElem]
    simp only [set_banned, List.getElem_map]
    by_cases hc : s[i].chat_id = cid
    · simp [hc]
    · simp [hc]

theorem clear_admin_request_of_find?_none (s : UsersState) (rid : Int)
    (h : s.admin_requests.find? (fun r => r.id == rid) = none) :
    clear_admin_request s rid = .error .typeError := by
  unfold clear_admin_request
  rw [h]

/-- C1 counterexample: the first accept of request 1 succeeds with full
effect, but a second accept (or a racing reject) of the same request,
whose SELECT of the now-deleted row returns nothing, raises the
TypeError modelled by `.error .typeError` (`_clear_admin_request`
unpacks `cursor.fetchone()` without a None check) — it is an error, not
the benign no-op the claim states. -/
theorem double_resolution_raises :
    accept_admin_request
        ⟨[⟨7, "f", "l", "u", "t0", false, false⟩], [⟨1, 7, "txt"⟩], [⟨1, 5, 9⟩]⟩ 1
      = .ok (⟨1, 7, "txt"⟩, [⟨5, 9⟩], ⟨[⟨7, "f", "l", "u", "t0", true, false⟩], [], []⟩)
  ∧ accept_admin_request ⟨[⟨7, "f", "l", "u", "t0", true, false⟩], [], []⟩ 1
      = .error .typeError
  ∧ reject_admin_request ⟨[⟨7, "f", "l", "u", "t0", true, false⟩], [], []⟩ 1
      = .error .typeError :=
  ⟨rfl, rfl, rfl⟩

/-- C1 (amended): admin-request resolution is one state transition over
one scoped cursor; a successful accept removes the request row and all
its confirmation rows and sets the admin flag of every non-banned row of
the candidate, and a subsequent resolution of the same request id
observes the empty request and raises (`.error .typeError`, the
unhandled unpacking of a missing row) while performing no mutation —
exactly one resolution succeeds with full effect, but the second is an
error rather than a silent no-op. -/
theorem admin_request_resolution (s : UsersState) (rid : Int) (req : ARow)
    (confs : List ChatAndMessageId) (s1 : UsersState)
    (h : accept_admin_request s rid = .ok (req, confs, s1)) :
    req.id = rid
  ∧ s1.admin_requests.find? (fun r => r.id == rid) = none
  ∧ s1.confirmations.filter (fun c => c.request_id == rid) = []
  ∧ (∀ r ∈ s1.users, r.chat_id = req.candidate_chat_id → r.banned = false →
        r.is_admin = true)
  ∧ accept_admin_request s1 rid = .error .typeError
  ∧ reject_admin_request s1 rid = .error .typeError := by
  unfold accept_admin_request at h
  cases hclear : clear_admin_request s rid with
  | error e =>
      rw [hclear] at h
      exact absurd h (by simp)
  | ok res =>
      obtain ⟨req', confs', s'⟩ := res
      rw [hclear] at h
      simp only [Except.ok.injEq, Prod.mk.injEq] at h
      obtain ⟨hreq, hconfs, hs1⟩ := h
      unfold clear_admin_request at hclear
      cases hfind : s.admin_requests.find? (fun r => r.id == rid) with
      | none =>
          rw [hfind] at hclear
          exact absurd hclear (by simp)
      | some reqrow =>
          rw [hfind] at hclear
          simp only [Except.ok.injEq, Prod.mk.injEq] at hclear
          obtain ⟨hreq', hconfs', hs'⟩ := hclear
          have hreqs : s1.admin_requests = s.admin_requests.filter (fun r => !(r.id == rid)) := by
            rw [← hs1, ← hs']
          have hcfs : s1.confirmations = s.confirmations.filter (fun c => !(c.request_id == rid)) := by
            rw [← hs1, ← hs']
          have hfind1 : s1.admin_requests.find? (fun r => r.id == rid) = none := by
            rw [hreqs]
            exact find?_filter_not _ _
          refine ⟨by rw [← hreq, ← hreq'], hfind1, ?_, ?_, ?_, ?_⟩
          · rw [hcfs]
            exact filter_filter_not _ _
          · intro r hr hchat hban
            have husers : s1.users = set_is_admin s'.users req'.candidate_chat_id true := by
              rw [← hs1]
            rw [husers, set_is_admin, List.mem_map] at hr
            obtain ⟨r0, hr0, hr0eq⟩ := hr
            by_cases hcond : (r0.chat_id == req'.candidate_chat_id && !r0.banned) = true
            · simp only [hcond, if_true] at hr0eq
              rw [← hr0eq]
            · rw [Bool.not_eq_true] at hcond
              simp [hcond] at hr0eq
              subst hr0eq
              rw [← hreq] at hchat
              simp [hchat, hban] at hcond
          · unfold accept_admin_request
            rw [clear_admin_request_of_find?_none s1 rid hfind1]
          · unfold reject_admin_request
            exact clear_admin_request_of_find?_none s1 rid hfind1

/-- Witness for `admin_request_resolution`: accepting request 1 in a
concrete one-request store and checking the post-state facts. -/
theorem admin_request_resolution_witness :
    accept_admin_request ⟨[⟨7, "f", "l", "u", "t0", true, false⟩], [], []⟩ 1
      = .error .typeError
  ∧ reject_admin_request ⟨[⟨7, "f", "l", "u", "t0", true, false⟩], [], []⟩ 1
      = .error .typeError :=
  ⟨(admin_request_resolution
      ⟨[⟨7, "f", "l", "u", "t0", false, false⟩], [⟨1, 7, "txt"⟩], [⟨1, 5, 9⟩]⟩ 1
      ⟨1, 7, "txt"⟩ [⟨5, 9⟩] ⟨[⟨7, "f", "l", "u", "t0", true, false⟩], [], []⟩
      (by rfl)).2.2.2.2.1,
   (admin_request_resolution
      ⟨[⟨7, "f", "l", "u", "t0", false, false⟩], [⟨1, 7, "txt"⟩], [⟨1, 5, 9⟩]⟩ 1
      ⟨1, 7, "txt"⟩ [⟨5, 9⟩] ⟨[⟨7, "f", "l", "u", "t0", true, false⟩], [], []⟩
      (by rfl)).2.2.2.2.2⟩

/-- Witness for `set_banned_frame_roundtrip` on a one-admin table. -/
theorem set_banned_frame_roundtrip_witness :
    set_banned (set_banned [⟨1, "a", "b", "c", "t", true, false⟩] 1 true) 1 false
      = [⟨1, "a", "b", "c", "t", true, false⟩]
  ∧ is_admin (set_banned (set_banned [⟨1, "a", "b", "c", "t", true, false⟩] 1 true) 1 false) 1
      = is_admin [⟨1, "a", "b", "c", "t", true, false⟩] 1 :=
  ⟨(set_banned_frame_roundtrip [⟨1, "a", "b", "c", "t", true, false⟩] 1 true (by decide)).2.2.1,
   (set_banned_frame_roundtrip [⟨1, "a", "b", "c", "t", true, false⟩] 1 true (by decide)).2.2.2⟩

/-- C3 counterexample: scheduling the same (chat_id, message_id) pair a
second time before the first deletion fires raises the duplicate-key
IntegrityError (`schedule` is a plain INSERT into a table whose
composite primary key is that pair), refuting "raises no duplicate-key
violation ... upserts or supersedes". -/
theorem schedule_twice_raises :
    schedule [] 1 2 0 10 = .ok [⟨1, 2, 10⟩]
  ∧ schedule [⟨1, 2, 10⟩] 1 2 100 20 = .error .integrityError :=
  ⟨rfl, rfl⟩

/-- C3 (amended): the first schedule of a fresh pair inserts exactly one
row for the pair; a second schedule of the same pair (before any
deletion) fails with the duplicate-key IntegrityError and leaves the
table as it was, so the at-most-one-row invariant holds but by
rejection of the re-schedule, not by upsert. -/
theorem schedule_duplicate_key (s : List DRow) (cid mid now ttl now2 ttl2 : Int)
    (h : s.any (fun r => r.chat_id == cid && r.message_id == mid) = false) :
    schedule s cid mid now ttl = .ok (s ++ [DRow.mk cid mid (now + ttl)])
  ∧ ((s ++ [DRow.mk cid mid (now + ttl)]).filter
        (fun r => r.chat_id == cid && r.message_id == mid)).length = 1
  ∧ schedule (s ++ [DRow.mk cid mid (now + ttl)]) cid mid now2 ttl2 = .error .integrityError := by
  have hnil : s.filter (fun r => r.chat_id == cid && r.message_id == mid) = [] := by
    rw [List.filter_eq_nil_iff]
    intro a ha
    rw [List.any_eq_false] at h
    exact h a ha
  refine ⟨?_, ?_, ?_⟩
  · simp [schedule, h]
  · rw [List.filter_append, hnil]
    simp
  · have hany : (s ++ [DRow.mk cid mid (now + ttl)]).any
        (fun r => r.chat_id == cid && r.message_id == mid) = true := by
      rw [List.any_append]
      simp
    simp [schedule, hany]

/-- Witness for `schedule_duplicate_key` at a concrete fresh pair. -/
theorem schedule_duplicate_key_witness :
    schedule [⟨9, 9, 5⟩] 1 2 0 10 = .ok [⟨9, 9, 5⟩, ⟨1, 2, 10⟩]
  ∧ (([⟨9, 9, 5⟩, ⟨1, 2, 10⟩] : List DRow).filter
        (fun r => r.chat_id == 1 && r.message_id == 2)).length = 1
  ∧ schedule [⟨9, 9, 5⟩, ⟨1, 2, 10⟩] 1 2 100 20 = .error .integrityError :=
  schedule_duplicate_key [⟨9, 9, 5⟩] 1 2 0 10 100 20 (by decide)

/-- C8 counterexample: with two due rows and limit 1, draining and
forgetting one batch leaves the second due row, so the immediate second
drain is non-empty — refuting purge idempotence for every store state. -/
theorem drain_forget_second_batch_nonempty :
    get_scheduled (forget [⟨1, 1, 0⟩, ⟨2, 2, 0⟩]
        (get_scheduled [⟨1, 1, 0⟩, ⟨2, 2, 0⟩] 1 0)) 1 0 = [⟨2, 2⟩]
  ∧ get_scheduled (forget [⟨1, 1, 0⟩, ⟨2, 2, 0⟩]
        (get_scheduled [⟨1, 1, 0⟩, ⟨2, 2, 0⟩] 1 0)) 1 0 ≠ [] :=
  ⟨rfl, by decide⟩

/-- C8 (amended): purge idempotence holds whenever the batch limit
covers all currently-due rows: if at most `limit` rows are due, then
after `get_scheduled`/`forget` an immediate second `get_scheduled` (no
new schedules, same clock) returns the empty batch.  (When more than
`limit` rows are due the second drain returns the leftover due rows, as
the counterexample shows.) -/
theorem drain_forget_idempotent_within_limit (s : List DRow) (limit : Nat) (now : Int)
    (h : (s.filter (fun r => decide (r.delete_at ≤ now))).length ≤ limit) :
    get_scheduled (forget s (get_scheduled s limit now)) limit now = [] := by
  have htake : (s.filter (fun r => decide (r.delete_at ≤ now))).take limit
      = s.filter (fun r => decide (r.delete_at ≤ now)) :=
    List.take_of_length_le h
  have hnil : (forget s (get_scheduled s limit now)).filter
      (fun r => decide (r.delete_at ≤ now)) = [] := by
    unfold forget get_scheduled
    rw [htake, List.filter_filter, List.filter_eq_nil_iff]
    intro r hr
    by_cases hdue : r.delete_at ≤ now
    · have hmem : (MessageToDelete.mk r.chat_id r.message_id) ∈
          (s.filter (fun x => decide (x.delete_at ≤ now))).map
            (fun x => MessageToDelete.mk x.chat_id x.message_id) := by
        rw [List.mem_map]
        exact ⟨r, List.mem_filter.mpr ⟨hr, by simp [hdue]⟩, rfl⟩
      have hany : ((s.filter (fun x => decide (x.delete_at ≤ now))).map
            (fun x => MessageToDelete.mk x.chat_id x.message_id)).any
          (fun m => m.chat_id == r.chat_id && m.message_id == r.message_id) = true := by
        rw [List.any_eq_true]
        exact ⟨MessageToDelete.mk r.chat_id r.message_id, hmem, by simp⟩
      simp [hany]
    · simp [hdue]
  have houter : get_scheduled (forget s (get_scheduled s limit now)) limit now
      = (((forget s (get_scheduled s limit now)).filter
            (fun r => decide (r.delete_at ≤ now))).take limit).map
          (fun r => MessageToDelete.mk r.chat_id r.message_id) := rfl
  rw [houter, hnil]
  simp

/-- Witness for `drain_forget_idempotent_within_limit`: one due row,
limit 1. -/
theorem drain_forget_idempotent_witness :
    get_scheduled (forget [⟨1, 1, 0⟩] (get_scheduled [⟨1, 1, 0⟩] 1 0)) 1 0 = [] :=
  drain_forget_idempotent_within_limit [⟨1, 1, 0⟩] 1 0 (by decide)

/-- C7 counterexample: in `CursorContext.__exit__` an exception raised
by the commit step (after a successful cursor close) skips
`lock.release()`, and in `Serializer.__exit__` an exception raised by
`cursor.close()` does the same — there are exit paths that leave the
process-wide lock held, refuting "no code path leaves the lock held". -/
theorem cursor_exit_lock_leak :
    (cursorContextExit true false true false).lockReleased = false
  ∧ (serializerExit true false).lockReleased = false := by
  decide

/-- C7 (amended): the scoped cursor releases the lock on normal exit and
on exit caused by an exception in the `with` body (the body outcome
never affects the release), but the release is not unconditional: it
happens exactly when `cursor.close()` does not raise and the requested
commit (if any) does not raise; an exception from either of those two
steps inside `__exit__` itself leaves the lock held. -/
theorem cursor_exit_release_policy (commitFlag closeRaises commitRaises bodyRaised : Bool) :
    ((cursorContextExit commitFlag closeRaises commitRaises bodyRaised).lockReleased
        = (!closeRaises && !(commitFlag && commitRaises)))
  ∧ ((serializerExit closeRaises bodyRaised).lockReleased = !closeRaises)
  ∧ ((cursorContextExit commitFlag false false bodyRaised).lockReleased = true)
  ∧ ((serializerExit false bodyRaised).lockReleased = true)
  ∧ ((cursorContextExit commitFlag closeRaises commitRaises true).lockReleased
        = (cursorContextExit commitFlag closeRaises commitRaises false).lockReleased) := by
  revert commitFlag closeRaises commitRaises bodyRaised
  decide

/-- C2: for a broadcast-confirmation callback whose text_id has no
matching unconfirmed_texts row, the `send` branch is the no-op-with-
notice the claim describes, but the `cancel` branch dereferences the
`None` returned by the lookup (`text_info.id` with no None check) and
raises an AttributeError — evaluated here at the failing input: callback
type `cancel`, text_id 5, empty unconfirmed_texts table. -/
theorem cancel_callback_missing_row_raises :
    on_callback ⟨[], [], []⟩ 99 .cancel 5 = .error .attributeError
  ∧ on_callback ⟨[], [], []⟩ 99 .send 5 = .ok (⟨[], [], []⟩, .alreadySent) :=
  ⟨rfl, rfl⟩

theorem purgeLoop_ok_iff (sw : TgError → Bool) (del_ : MessageToDelete → Option TgError)
    (ms : List MessageToDelete) :
    purgeLoop sw del_ ms = .ok () ↔ ∀ m ∈ ms, ∀ e, del_ m = some e → sw e = true := by
  induction ms with
  | nil => simp [purgeLoop]
  | cons m rest ih =>
      rw [List.forall_mem_cons]
      cases hd : del_ m with
      | none =>
          simp only [purgeLoop, hd, ih]
          constructor
          · intro hrest
            exact ⟨fun e he => absurd he (by simp), hrest⟩
          · intro hboth
            exact hboth.2
      | some e =>
          by_cases hsw : sw e = true
          · simp only [purgeLoop, hd, hsw, if_true, ih]
            constructor
            · intro hrest
              refine ⟨fun e2 he2 => ?_, hrest⟩
              rw [Option.some.injEq] at he2
              rw [← he2]
              exact hsw
            · intro hboth
              exact hboth.2
          · simp only [purgeLoop, hd, hsw, if_false]
            constructor
            · intro habs
              exact absurd habs (by simp)
            · intro hboth
              exact absurd (hboth.1 e rfl) hsw

/-- C4 counterexample: the purge job cited in heb1025bot/main.py
swallows only "Message to delete not found"; a delete failing with
"Message can't be deleted" propagates there and the batch is not
forgotten — while the aspects purge swallows it and forgets the batch —
refuting "exactly two delete-failure kinds are swallowed" for that
cited code. -/
theorem legacy_purge_propagates_cant_delete :
    remove_scheduled_legacy (fun _ => some (.badRequest "Message can't be deleted"))
        [⟨1, 1, 0⟩] 0
      = .error (.badRequest "Message can't be deleted")
  ∧ remove_scheduled (fun _ => some (.badRequest "Message can't be deleted"))
        [⟨1, 1, 0⟩] 0
      = .ok [] :=
  ⟨rfl, rfl⟩

/-- C4 (amended): in the aspects purge (bots/aspects/autodelete.py) the
drained batch is forgotten exactly when every per-entry delete failure
is one of the two expected BadRequest kinds ("Message to delete not
found", "Message can't be deleted") — any other failure propagates and
prevents the forget step; in the legacy purge (heb1025bot/main.py) only
"Message to delete not found" is swallowed, so there the second kind
also propagates and prevents the forget. -/
theorem purge_swallow_policy (del_ : MessageToDelete → Option TgError)
    (s : List DRow) (now : Int) :
    (remove_scheduled del_ s now = .ok (forget s (get_scheduled s 25 now))
       ↔ ∀ m ∈ get_scheduled s 25 now, ∀ e, del_ m = some e → aspectsSwallows e = true)
  ∧ (remove_scheduled_legacy del_ s now = .ok (forget s (get_scheduled s 25 now))
       ↔ ∀ m ∈ get_scheduled s 25 now, ∀ e, del_ m = some e → legacySwallows e = true)
  ∧ (∀ e, aspectsSwallows e = true ↔
        (e = .badRequest "Message to delete not found"
          ∨ e = .badRequest "Message can't be deleted"))
  ∧ (∀ e, legacySwallows e = true ↔ e = .badRequest "Message to delete not found") := by
  refine ⟨?_, ?_, ?_, ?_⟩
  · constructor
    · intro hok
      cases hp : purgeLoop aspectsSwallows del_ (get_scheduled s 25 now) with
      | ok u =>
          cases u
          exact (purgeLoop_ok_iff _ _ _).mp hp
      | error e =>
          rw [remove_scheduled, hp] at hok
          exact absurd hok (by simp)
    · intro hall
      rw [remove_scheduled, (purgeLoop_ok_iff _ _ _).mpr hall]
  · constructor
    · intro hok
      cases hp : purgeLoop legacySwallows del_ (get_scheduled s 25 now) with
      | ok u =>
          cases u
          exact (purgeLoop_ok_iff _ _ _).mp hp
      | error e =>
          rw [remove_scheduled_legacy, hp] at hok
          exact absurd hok (by simp)
    · intro hall
      rw [remove_scheduled_legacy, (purgeLoop_ok_iff _ _ _).mpr hall]
  · intro e
    cases e with
    | badRequest m => simp [aspectsSwallows]
    | otherError => simp [aspectsSwallows]
  · intro e
    cases e with
    | badRequest m => simp [legacySwallows]
    | otherError => simp [legacySwallows]

/-- Witness for `purge_swallow_policy`: a purge whose single due entry
fails with the swallowed "Message can't be deleted" still forgets the
batch in the aspects variant. -/
theorem purge_swallow_policy_witness :
    remove_scheduled (fun _ => some (.badRequest "Message to delete not found"))
        [⟨3, 4, 0⟩] 0
      = .ok (forget [⟨3, 4, 0⟩] (get_scheduled [⟨3, 4, 0⟩] 25 0)) :=
  ((purge_swallow_policy (fun _ => some (.badRequest "Message to delete not found"))
      [⟨3, 4, 0⟩] 0).1).mpr (by decide)

theorem sendLoop_ok_iff (send : SendTask → SendOutcome) (ts : List SendTask) :
    sendLoop send ts = .ok () ↔ ∀ t ∈ ts, send t ≠ .otherError := by
  induction ts with
  | nil => simp [sendLoop]
  | cons t rest ih =>
      cases hs : send t with
      | ok => simp [sendLoop, hs, ih, List.forall_mem_cons]
      | badRequest => simp [sendLoop, hs, ih, List.forall_mem_cons]
      | otherError => simp [sendLoop, hs, List.forall_mem_cons]

theorem sendLoop_legacy_ok_iff (send : SendTask → SendOutcome) (ts : List SendTask) :
    sendLoop_legacy send ts = .ok () ↔ ∀ t ∈ ts, send t = .ok := by
  induction ts with
  | nil => simp [sendLoop_legacy]
  | cons t rest ih =>
      cases hs : send t with
      | ok => simp [sendLoop_legacy, hs, ih, List.forall_mem_cons]
      | badRequest => simp [sendLoop_legacy, hs, List.forall_mem_cons]
      | otherError => simp [sendLoop_legacy, hs, List.forall_mem_cons]

/-- C5 counterexample: the send-task dispatcher cited in
heb1025bot/main.py has no try/except — a BadRequest delivery failure on
the first recipient aborts the run, the remaining task is never
attempted and no task id is dismissed; the bots/heb1025 dispatcher, by
contrast, skips the failures and dismisses the whole batch.  This
refutes "a delivery failure ... does not prevent the dispatch attempts
for the remaining tasks ... every task id is dismissed unconditionally"
for that cited code. -/
theorem legacy_dispatch_aborts_on_failure :
    send_tasks_legacy (fun _ => .badRequest) [⟨1, 10, "hi"⟩, ⟨2, 11, "hi"⟩] = .error ()
  ∧ send_tasks (fun _ => .badRequest) [⟨1, 10, "hi"⟩, ⟨2, 11, "hi"⟩] = .ok [] :=
  ⟨rfl, rfl⟩

/-- C5 (amended): in bots/heb1025/__main__.py a BadRequest delivery
failure for one recipient is logged and does not block the rest, and
the whole loaded batch is dismissed exactly when no task fails with a
non-BadRequest error (any such error propagates and prevents the
dismissal of every task id in the batch); in heb1025bot/main.py, which
has no exception handler, the batch is dismissed exactly when every
send succeeds, so there any delivery failure aborts the remaining
dispatch attempts and prevents the dismissal. -/
theorem dispatch_dismiss_policy (send : SendTask → SendOutcome) (s : List SendTask) :
    (send_tasks send s = .ok (dismiss s ((load s 20).map (fun t => t.task_id)))
       ↔ ∀ t ∈ load s 20, send t ≠ .otherError)
  ∧ (send_tasks_legacy send s = .ok (dismiss s ((load s 20).map (fun t => t.task_id)))
       ↔ ∀ t ∈ load s 20, send t = .ok) := by
  constructor
  · constructor
    · intro hok
      cases hp : sendLoop send (load s 20) with
      | ok u =>
          cases u
          exact (sendLoop_ok_iff _ _).mp hp
      | error e =>
          rw [send_tasks, hp] at hok
          exact absurd hok (by simp)
    · intro hall
      rw [send_tasks, (sendLoop_ok_iff _ _).mpr hall]
  · constructor
    · intro hok
      cases hp : sendLoop_legacy send (load s 20) with
      | ok u =>
          cases u
          exact (sendLoop_legacy_ok_iff _ _).mp hp
      | error e =>
          rw [send_tasks_legacy, hp] at hok
          exact absurd hok (by simp)
    · intro hall
      rw [send_tasks_legacy, (sendLoop_legacy_ok_iff _ _).mpr hall]

/-- Witness for `dispatch_dismiss_policy`: a two-task batch where one
delivery fails with BadRequest is still dismissed whole by the
bots/heb1025 dispatcher. -/
theorem dispatch_dismiss_policy_witness :
    send_tasks (fun t => if t.task_id == 1 then .badRequest else .ok)
        [⟨1, 10, "hi"⟩, ⟨2, 11, "hi"⟩]
      = .ok (dismiss [⟨1, 10, "hi"⟩, ⟨2, 11, "hi"⟩]
          ((load [⟨1, 10, "hi"⟩, ⟨2, 11, "hi"⟩] 20).map (fun t => t.task_id))) :=
  ((dispatch_dismiss_policy (fun t => if t.task_id == 1 then .badRequest else .ok)
      [⟨1, 10, "hi"⟩, ⟨2, 11, "hi"⟩]).1).mpr (by decide)

/-- C9 counterexample: the legacy `Storage.add_user`
(heb1025bot/storage.py, INSERT OR REPLACE) applied to an existing
chat_id rewrites the whole row: the display fields are updated and
is_admin is preserved through the scalar subselect, but start_time — a
non-display field — is reset to the current time, refuting "updates
only the display fields ... of that row". -/
theorem legacy_add_user_resets_start_time :
    add_user_legacy [⟨1, "a", "b", "c", "2020-01-01", true⟩] 1 "a" "b" "c" "2021-06-30"
      = [⟨1, "a", "b", "c", "2021-06-30", true⟩]
  ∧ (add_user_legacy [⟨1, "a", "b", "c", "2020-01-01", true⟩] 1 "a" "b" "c"
        "2021-06-30").map (fun r => r.start_time) ≠ ["2020-01-01"] :=
  ⟨rfl, by decide⟩

/-- C9 (amended): in bots/aspects/users.py, `add_user` for a known
chat_id updates only the three display fields of the matching rows and
leaves chat_id, start_time, is_admin and banned of every row — and
non-matching rows entirely — unchanged, and for an unknown chat_id
appends a fresh row with is_admin and banned false; the legacy
`Storage.add_user` (heb1025bot/storage.py) instead replaces the row,
preserving is_admin (the legacy schema has no banned column) but
resetting start_time to the current time. -/
theorem add_user_upsert_frame (s : UsersTable) (cid : Int) (fn ln un nw : String) :
    (s.any (fun r => r.chat_id == cid) = false →
        add_user s cid fn ln un nw
          = s ++ [URow.mk cid fn ln un nw false false])
  ∧ (s.any (fun r => r.chat_id == cid) = true →
        (add_user s cid fn ln un nw).length = s.length
      ∧ ∀ (i : Nat) (hi : i < s.length) (hi2 : i < (add_user s cid fn ln un nw).length),
          ((add_user s cid fn ln un nw).get ⟨i, hi2⟩).chat_id = (s.get ⟨i, hi⟩).chat_id
        ∧ ((add_user s cid fn ln un nw).get ⟨i, hi2⟩).start_time = (s.get ⟨i, hi⟩).start_time
        ∧ ((add_user s cid fn ln un nw).get ⟨i, hi2⟩).is_admin = (s.get ⟨i, hi⟩).is_admin
        ∧ ((add_user s cid fn ln un nw).get ⟨i, hi2⟩).banned = (s.get ⟨i, hi⟩).banned
        ∧ ((s.get ⟨i, hi⟩).chat_id ≠ cid →
              (add_user s cid fn ln un nw).get ⟨i, hi2⟩ = s.get ⟨i, hi⟩)
        ∧ ((s.get ⟨i, hi⟩).chat_id = cid →
              (add_user s cid fn ln un nw).get ⟨i, hi2⟩
                = { s.get ⟨i, hi⟩ with first_name := fn, last_name := ln, username := un }))
  ∧ (∀ (ls : List LURow) (r : LURow), ls.find? (fun x => x.chat_id == cid) = some r →
        (add_user_legacy ls cid fn ln un nw).find? (fun x => x.chat_id == cid)
          = some (LURow.mk cid fn ln un nw r.is_admin)) := by
  refine ⟨?_, ?_, ?_⟩
  · intro hnone
    simp [add_user, hnone]
  · intro hsome
    constructor
    · simp [add_user, hsome]
    · intro i hi hi2
      rw [List.get_eq_getElem, List.get_eq_getElem]
      simp only [add_user, hsome, if_true, List.getElem_map]
      by_cases hc : s[i].chat_id = cid
      · simp [hc]
      · simp [hc]
  · intro ls r hfind
    simp only [add_user_legacy, hfind]
    rw [List.find?_append, find?_filter_not ls (fun x => x.chat_id == cid)]
    simp [List.find?]

/-- Witness for `add_user_upsert_frame`: a fresh insert, a display-only
update on a banned admin row, and the legacy replacement. -/
theorem add_user_upsert_frame_witness :
    add_user [] 5 "n" "m" "u" "t5" = [URow.mk 5 "n" "m" "u" "t5" false false]
  ∧ ((add_user [⟨5, "a", "b", "c", "t0", true, true⟩] 5 "n" "m" "u" "t5").get
        ⟨0, by decide⟩).is_admin
      = (([⟨5, "a", "b", "c", "t0", true, true⟩] : UsersTable).get ⟨0, by decide⟩).is_admin
  ∧ (add_user_legacy [⟨5, "a", "b", "c", "t0", true⟩] 5 "n" "m" "u" "t5").find?
        (fun x => x.chat_id == 5)
      = some (LURow.mk 5 "n" "m" "u" "t5" true) :=
  ⟨(add_user_upsert_frame [] 5 "n" "m" "u" "t5").1 (by decide),
   (((add_user_upsert_frame [⟨5, "a", "b", "c", "t0", true, true⟩] 5 "n" "m" "u" "t5").2.1
      (by decide)).2 0 (by decide) (by decide)).2.2.1,
   (add_user_upsert_frame [] 5 "n" "m" "u" "t5").2.2
     [⟨5, "a", "b", "c", "t0", true⟩] ⟨5, "a", "b", "c", "t0", true⟩ (by decide)⟩

end Heb1025
